import Mathlib

/-!
Verification of the model-card selection/launch component
(`src/xinference/web/ui/src/scenes/launch_model/modelCard.js`).

The component is embedded shallowly:
* the catalog (`modelData` prop) becomes `ModelData` / `VariantSpec`;
* the React local state becomes `CardState`; the shared `ApiContext`
  flags become `ApiFlags`;
* the three `useEffect` option-derivation bodies become the pure
  functions `formatOptionsOf`, `sizeOptionsOf`, `quantizationOptionsOf`;
* the `launchModel` promise chain becomes a function from the outcomes
  of the two `fetch` calls (`LaunchEnv`) to the list of observable
  events (`Event`): flag writes, requests, responses, console logging,
  and `window.open`;
* JavaScript builtins used by the code are modelled explicitly:
  `new Set(...)` iteration (insertion order, first occurrence) as
  `jsSetDedup`, and `parseFloat` as `jsParseFloat` (restricted to plain
  decimal literals; `none` plays the role of `NaN`, which compares
  unequal to every number under `===`).
-/

/-- One entry of `modelData.model_specs`: a concrete variant of the model
family.  Field names follow the JSON fields read by the code
(`model_format`, `model_size_in_billions`, `quantizations`).  Sizes are
decimal numbers in the catalog, embedded as `Rat`. -/
structure VariantSpec where
  model_format : String
  model_size_in_billions : Rat
  quantizations : List String
deriving DecidableEq, Repr

/-- The `modelData` prop: one catalog entry.  Only the fields the
component reads are kept (`model_name`, `is_builtin`, `model_specs`;
the description/ability/context-length fields feed pure presentation
and are omitted).  A JS object is always truthy, so the `modelData &&`
conjunct of the launch-button guard is `true` in this embedding. -/
structure ModelData where
  model_name : String
  is_builtin : Bool
  model_specs : List VariantSpec
deriving DecidableEq, Repr

/-- The component's local `useState` cells.  `modelFormat`, `modelSize`
and `quantization` are the Selection tuple; all three start as the
empty string, so the chosen size is string-typed and is compared to the
numeric catalog sizes via `parseFloat`. -/
structure CardState where
  hover : Bool
  selected : Bool
  modelFormat : String
  modelSize : String
  quantization : String
  formatOptions : List String
  sizeOptions : List Rat
  quantizationOptions : List String
deriving DecidableEq, Repr

/-- The shared `ApiContext` flags: `isCallingApi` (read/write) and
`isUpdatingModel` (read-only here). -/
structure ApiFlags where
  isCallingApi : Bool
  isUpdatingModel : Bool
deriving DecidableEq, Repr

/-- Model of the JS builtin `parseFloat`, restricted to the literals the
component can meet: optional sign, then decimal digits with an optional
fractional part.  `none` stands for `NaN`; since `NaN === x` is false
for every `x`, a failed parse makes every size comparison false, which
the embedding renders as `none ≠ some r`. -/
def jsParseFloat (s : String) : Option Rat :=
  let chars := s.data
  let rest := match chars with
    | '-' :: r => r
    | '+' :: r => r
    | r => r
  let neg : Bool := match chars with
    | '-' :: _ => true
    | _ => false
  let intPart := rest.takeWhile Char.isDigit
  let afterInt := rest.dropWhile Char.isDigit
  let fracPart := match afterInt with
    | '.' :: r => r.takeWhile Char.isDigit
    | _ => []
  if intPart.isEmpty && fracPart.isEmpty then none
  else
    let ip : Nat := intPart.foldl (fun a c => 10 * a + (c.toNat - 48)) 0
    let fp : Nat := fracPart.foldl (fun a c => 10 * a + (c.toNat - 48)) 0
    let mag : Rat :=
      if fracPart.isEmpty then (ip : Nat)
      else (ip : Rat) + (fp : Rat) / ((10 : Rat) ^ fracPart.length)
    some (if neg then -mag else mag)

/-- Model of `[...new Set(l)]`: JS `Set` keeps insertion order and the
first occurrence of each element, so spreading it back into an array
deduplicates while preserving first-seen order. -/
def jsSetDedup {α : Type} [DecidableEq α] (l : List α) : List α :=
  l.foldl (fun acc x => if x ∈ acc then acc else acc ++ [x]) []

/-- Spec-side description of "the distinct values, each exactly once, in
order of first appearance": keep the head, drop its later duplicates,
recurse.  Used as the reference point that `jsSetDedup` is proved to
refine. -/
def distinctFirstSeen {α : Type} [DecidableEq α] : List α → List α
  | [] => []
  | x :: xs => x :: distinctFirstSeen (xs.filter (fun y => decide (y ≠ x)))
termination_by l => l.length
decreasing_by
  simp only [List.length_cons]
  exact Nat.lt_succ_of_le (List.length_filter_le _ _)

theorem mem_distinctFirstSeen {α : Type} [DecidableEq α] (a : α) :
    ∀ l : List α, a ∈ distinctFirstSeen l ↔ a ∈ l := by
  intro l
  induction l using distinctFirstSeen.induct with
  | case1 => simp [distinctFirstSeen]
  | case2 x xs ih =>
    simp only [distinctFirstSeen, List.mem_cons, ih, List.mem_filter,
      decide_eq_true_eq]
    constructor
    · rintro (rfl | ⟨h, _⟩)
      · exact Or.inl rfl
      · exact Or.inr h
    · rintro (rfl | h)
      · exact Or.inl rfl
      · by_cases hax : a = x
        · exact Or.inl hax
        · exact Or.inr ⟨h, hax⟩

theorem nodup_distinctFirstSeen {α : Type} [DecidableEq α] :
    ∀ l : List α, (distinctFirstSeen l).Nodup := by
  intro l
  induction l using distinctFirstSeen.induct with
  | case1 => simp [distinctFirstSeen]
  | case2 x xs ih =>
    simp only [distinctFirstSeen, List.nodup_cons]
    refine ⟨?_, ih⟩
    intro hmem
    rw [mem_distinctFirstSeen] at hmem
    simp only [List.mem_filter, decide_eq_true_eq] at hmem
    exact hmem.2 rfl

theorem foldl_dedup_eq_distinctFirstSeen {α : Type} [DecidableEq α] :
    ∀ (l acc : List α),
      l.foldl (fun acc x => if x ∈ acc then acc else acc ++ [x]) acc
        = acc ++ distinctFirstSeen (l.filter (fun y => decide (y ∉ acc))) := by
  intro l
  induction l with
  | nil => intro acc; simp [distinctFirstSeen]
  | cons x xs ih =>
    intro acc
    by_cases hx : x ∈ acc
    · rw [List.foldl_cons, if_pos hx, ih acc]
      have hcons : (x :: xs).filter (fun y => decide (y ∉ acc))
          = xs.filter (fun y => decide (y ∉ acc)) := by
        simp [List.filter_cons, hx]
      rw [hcons]
    · rw [List.foldl_cons, if_neg hx, ih (acc ++ [x])]
      have hcons : (x :: xs).filter (fun y => decide (y ∉ acc))
          = x :: xs.filter (fun y => decide (y ∉ acc)) := by
        simp [List.filter_cons, hx]
      have hfilter :
          xs.filter (fun y => decide (y ∉ acc ++ [x]))
            = (xs.filter (fun y => decide (y ∉ acc))).filter
                (fun y => decide (y ≠ x)) := by
        rw [List.filter_filter]
        apply List.filter_congr
        intro y _
        by_cases h1 : y ∈ acc <;> by_cases h2 : y = x <;>
          simp [h1, h2, List.mem_append]
      rw [hcons, distinctFirstSeen, hfilter]
      simp

theorem jsSetDedup_eq_distinctFirstSeen {α : Type} [DecidableEq α]
    (l : List α) : jsSetDedup l = distinctFirstSeen l := by
  unfold jsSetDedup
  rw [foldl_dedup_eq_distinctFirstSeen l []]
  simp

theorem mem_jsSetDedup {α : Type} [DecidableEq α] (a : α) (l : List α) :
    a ∈ jsSetDedup l ↔ a ∈ l := by
  rw [jsSetDedup_eq_distinctFirstSeen, mem_distinctFirstSeen]

theorem nodup_jsSetDedup {α : Type} [DecidableEq α] (l : List α) :
    (jsSetDedup l).Nodup := by
  rw [jsSetDedup_eq_distinctFirstSeen]
  exact nodup_distinctFirstSeen l

/-- The `useEffect` with deps `[modelData]` (lines 33-41): format options
are `[...new Set(modelFamily.map((spec) => spec.model_format))]`. -/
def formatOptionsOf (md : ModelData) : List String :=
  jsSetDedup (md.model_specs.map (fun spec => spec.model_format))

/-- The `useEffect` with deps `[modelFormat, modelData]` (lines 43-55):
size options are the deduplicated `model_size_in_billions` of the specs
whose `model_format` strictly equals the chosen format. -/
def sizeOptionsOf (md : ModelData) (fmt : String) : List Rat :=
  jsSetDedup
    ((md.model_specs.filter (fun spec => decide (spec.model_format = fmt))).map
      (fun spec => spec.model_size_in_billions))

/-- The `useEffect` with deps `[modelFormat, modelSize, modelData]`
(lines 57-73): quantization options are the deduplicated flatMap of
`quantizations` over the specs whose format equals the chosen format and
whose size strictly equals `parseFloat(modelSize)`. -/
def quantizationOptionsOf (md : ModelData) (fmt : String) (size : String) :
    List String :=
  jsSetDedup
    ((md.model_specs.filter (fun spec =>
        decide (spec.model_format = fmt) &&
        decide (jsParseFloat size = some spec.model_size_in_billions))).flatMap
      (fun spec => spec.quantizations))

/-- The outcome the environment gives to one `fetch` call: either the
promise resolves to a response (carrying an HTTP status, and whether its
body decodes as JSON — `response.json()` would fulfil or reject), or the
promise itself rejects (network failure). -/
inductive FetchOutcome : Type
  | resolve (status : Nat) (bodyDecodes : Bool)
  | reject
deriving DecidableEq, Repr

/-- The nondeterministic inputs of one launch run: the id produced by
`uuidv1()` and the outcomes of the two `fetch` calls. -/
structure LaunchEnv where
  uuid : String
  fetch1 : FetchOutcome
  fetch2 : FetchOutcome
deriving DecidableEq, Repr

/-- The JSON body `modelDataWithID` posted by both requests (lines
83-89).  `model_size_in_billions` is the string-typed selection value
`modelSize`, serialized as chosen. -/
structure LaunchBody where
  model_uid : String
  model_name : String
  model_format : String
  model_size_in_billions : String
  quantization : String
deriving DecidableEq, Repr

/-- Observable actions of one launch run, in program order. -/
inductive Event : Type
  | setIsCallingApi (b : Bool)
  | fetchReq (url : String) (body : LaunchBody)
  | fetchResp (url : String) (status : Nat)
  | fetchReject (url : String)
  | consoleError
  | windowOpen (url : String)
deriving DecidableEq, Repr

/-- URL of the first request, `url + "/v1/models"` (line 92). -/
def modelsUrl (url : String) : String := url ++ "/v1/models"

/-- URL of the second request, `url + "/v1/ui/" + uuid` (line 104). -/
def uiUrl (url : String) (uuid : String) : String := url ++ "/v1/ui/" ++ uuid

/-- `modelDataWithID` (lines 83-89). -/
def launchBody (md : ModelData) (st : CardState) (uuid : String) :
    LaunchBody :=
  { model_uid := uuid
    model_name := md.model_name
    model_format := st.modelFormat
    model_size_in_billions := st.modelSize
    quantization := st.quantization }

/-- The `launchModel` function (lines 75-123) as a trace of observable
events.  Faithfulness notes:
* the guard (lines 76-78) returns before any effect when `isCallingApi`
  or `isUpdatingModel` is set;
* the handler `.then((response) => { response.json(); })` (lines 99-101
  and 112-114) calls `response.json()` but neither returns nor awaits
  the resulting promise, so a body that fails to decode produces an
  unhandled rejection that never reaches this chain's `.catch`: the
  chain continues exactly as on success, which is why `bodyDecodes`
  does not influence the trace;
* only a rejected `fetch` promise skips to the `.catch` (lines
  119-122), which logs via `console.error` and clears the flag. -/
def launchModel (flags : ApiFlags) (md : ModelData) (st : CardState)
    (url : String) (env : LaunchEnv) : List Event :=
  if flags.isCallingApi || flags.isUpdatingModel then []
  else
    let body := launchBody md st env.uuid
    Event.setIsCallingApi true ::
    Event.fetchReq (modelsUrl url) body ::
    match env.fetch1 with
    | FetchOutcome.reject =>
        [Event.fetchReject (modelsUrl url), Event.consoleError,
         Event.setIsCallingApi false]
    | FetchOutcome.resolve s1 _ =>
        Event.fetchResp (modelsUrl url) s1 ::
        Event.fetchReq (uiUrl url env.uuid) body ::
        match env.fetch2 with
        | FetchOutcome.reject =>
            [Event.fetchReject (uiUrl url env.uuid), Event.consoleError,
             Event.setIsCallingApi false]
        | FetchOutcome.resolve s2 _ =>
            [Event.fetchResp (uiUrl url env.uuid) s2,
             Event.windowOpen (url ++ "/" ++ env.uuid),
             Event.setIsCallingApi false]

/-- `true` exactly when the Selection is complete: the inner conjunct of
the launch button's `disabled` expression (lines 383-389).  The
`modelData &&` conjunct is truthy (an object) in this embedding. -/
def selectionComplete (md : ModelData) (st : CardState) : Bool :=
  !(st.modelFormat == "") && !(st.modelSize == "") &&
    (!(st.quantization == "") ||
      (!md.is_builtin && !(st.modelFormat == "pytorch")))

/-- The launch button's `disabled` attribute (lines 380-390). -/
def launchButtonDisabled (flags : ApiFlags) (md : ModelData)
    (st : CardState) : Bool :=
  flags.isCallingApi || flags.isUpdatingModel || !selectionComplete md st

/-- A user click on the launch control: a disabled button fires no
`onClick`, an enabled one runs `launchModel` (line 379). -/
def clickLaunch (flags : ApiFlags) (md : ModelData) (st : CardState)
    (url : String) (env : LaunchEnv) : List Event :=
  if launchButtonDisabled flags md st then []
  else launchModel flags md st url env

/-- The three option-derivation effects as they re-run after a render in
which `modelFormat` changed (React re-runs an effect when a dep
changed): the format-options effect (deps `[modelData]`) does not
re-run; the size effect runs its body only under `modelFormat &&
modelData`; the quantization effect only under `modelFormat &&
modelSize && modelData`.  Neither effect touches the selection cells. -/
def effectsAfterFormatChange (md : ModelData) (st : CardState) :
    CardState :=
  let st1 :=
    if !(st.modelFormat == "") then
      { st with sizeOptions := sizeOptionsOf md st.modelFormat }
    else st
  if !(st1.modelFormat == "") && !(st1.modelSize == "") then
    { st1 with
        quantizationOptions :=
          quantizationOptionsOf md st1.modelFormat st1.modelSize }
  else st1

/-- The Model Format `Select`'s `onChange` (line 322),
`setModelFormat(e.target.value)`, followed by the effects it wakes. -/
def formatChange (md : ModelData) (st : CardState) (v : String) :
    CardState :=
  effectsAfterFormatChange md { st with modelFormat := v }

/-- The undo control's `onClick` (line 434): `setSelected(false)` and
nothing else. -/
def undoClick (st : CardState) : CardState := { st with selected := false }

/-- A concrete catalog entry used to instantiate universally quantified
theorems: the two-variant pytorch family from the spec's scenario. -/
def sampleModel : ModelData :=
  { model_name := "llama-2"
    is_builtin := true
    model_specs :=
      [{ model_format := "pytorch", model_size_in_billions := 7,
         quantizations := ["int4", "int8"] },
       { model_format := "pytorch", model_size_in_billions := 13,
         quantizations := ["int4"] }] }

/-- A concrete complete Selection over `sampleModel`. -/
def sampleState : CardState :=
  { hover := false
    selected := true
    modelFormat := "pytorch"
    modelSize := "7"
    quantization := "int4"
    formatOptions := ["pytorch"]
    sizeOptions := [7, 13]
    quantizationOptions := ["int4", "int8"] }

/-- C1: for every selection state in which the selection is incomplete
(format empty, or size empty, or quantization empty while the model is
built-in or the chosen format is "pytorch"), invoking the launch
control issues no network call: the button's `disabled` guard holds, so
its `onClick` never fires and the trace is empty. -/
theorem clickLaunch_incomplete_no_network (flags : ApiFlags)
    (md : ModelData) (st : CardState) (url : String) (env : LaunchEnv)
    (u : String) (b : LaunchBody)
    (h : st.modelFormat = "" ∨ st.modelSize = "" ∨
      (st.quantization = "" ∧
        (md.is_builtin = true ∨ st.modelFormat = "pytorch"))) :
    Event.fetchReq u b ∉ clickLaunch flags md st url env := by
  have hdis : launchButtonDisabled flags md st = true := by
    unfold launchButtonDisabled selectionComplete
    rcases h with h | h | ⟨hq, hb⟩
    · simp [h]
    · simp [h]
    · rcases hb with hb | hf
      · simp [hq, hb]
      · simp [hq, hf]
  simp [clickLaunch, hdis]

/-- Witness for C1: with an empty format over the sample catalog, the
launch click issues no request to the models endpoint. -/
theorem clickLaunch_incomplete_no_network_witness :
    Event.fetchReq "http://h/v1/models"
        (launchBody sampleModel { sampleState with modelFormat := "" } "u1")
      ∉ clickLaunch ⟨false, false⟩ sampleModel
          { sampleState with modelFormat := "" } "http://h"
          ⟨"u1", FetchOutcome.reject, FetchOutcome.reject⟩ :=
  clickLaunch_incomplete_no_network ⟨false, false⟩ sampleModel
    { sampleState with modelFormat := "" } "http://h"
    ⟨"u1", FetchOutcome.reject, FetchOutcome.reject⟩ "http://h/v1/models"
    (launchBody sampleModel { sampleState with modelFormat := "" } "u1")
    (Or.inl rfl)

/-- C5: when the shared `isCallingApi` flag or the `isUpdatingModel`
flag is true, `launchModel` returns at its guard: the trace holds no
request and no write to the in-flight flag. -/
theorem launchModel_busy_no_network (flags : ApiFlags) (md : ModelData)
    (st : CardState) (url : String) (env : LaunchEnv)
    (h : flags.isCallingApi = true ∨ flags.isUpdatingModel = true) :
    (∀ u b, Event.fetchReq u b ∉ launchModel flags md st url env) ∧
    (∀ b, Event.setIsCallingApi b ∉ launchModel flags md st url env) := by
  have hnil : launchModel flags md st url env = [] := by
    unfold launchModel
    rcases h with h | h <;> simp [h]
  rw [hnil]
  exact ⟨fun _ _ => List.not_mem_nil _, fun _ => List.not_mem_nil _⟩

/-- Witness for C5: with the shared flag set, the run issues no request
and never touches the flag. -/
theorem launchModel_busy_no_network_witness :
    Event.fetchReq "http://h/v1/models" (launchBody sampleModel sampleState "u1")
        ∉ launchModel ⟨true, false⟩ sampleModel sampleState "http://h"
            ⟨"u1", FetchOutcome.resolve 200 true, FetchOutcome.resolve 200 true⟩ ∧
    Event.setIsCallingApi false
        ∉ launchModel ⟨true, false⟩ sampleModel sampleState "http://h"
            ⟨"u1", FetchOutcome.resolve 200 true, FetchOutcome.resolve 200 true⟩ :=
  ⟨(launchModel_busy_no_network ⟨true, false⟩ sampleModel sampleState "http://h"
      ⟨"u1", FetchOutcome.resolve 200 true, FetchOutcome.resolve 200 true⟩
      (Or.inl rfl)).1 "http://h/v1/models"
      (launchBody sampleModel sampleState "u1"),
   (launchModel_busy_no_network ⟨true, false⟩ sampleModel sampleState "http://h"
      ⟨"u1", FetchOutcome.resolve 200 true, FetchOutcome.resolve 200 true⟩
      (Or.inl rfl)).2 false⟩

/-- C8: the undo control sets `selected` to false and leaves every
other state cell — in particular the Selection tuple (format, size,
quantization) and the derived option lists — unchanged. -/
theorem undoClick_only_selected (st : CardState) :
    (undoClick st).selected = false ∧
    (undoClick st).modelFormat = st.modelFormat ∧
    (undoClick st).modelSize = st.modelSize ∧
    (undoClick st).quantization = st.quantization ∧
    (undoClick st).hover = st.hover ∧
    (undoClick st).formatOptions = st.formatOptions ∧
    (undoClick st).sizeOptions = st.sizeOptions ∧
    (undoClick st).quantizationOptions = st.quantizationOptions := by
  unfold undoClick
  exact ⟨rfl, rfl, rfl, rfl, rfl, rfl, rfl, rfl⟩

/-- C6: for every catalog and chosen format/size strings, membership in
the derived quantization options is exactly membership in the
`quantizations` list of some variant whose format equals the chosen one
and whose numeric size equals the parse of the chosen size; the list is
deduplicated. -/
theorem quantizationOptions_union (md : ModelData) (f s : String) :
    (∀ q, q ∈ quantizationOptionsOf md f s ↔
        ∃ spec ∈ md.model_specs, spec.model_format = f ∧
          jsParseFloat s = some spec.model_size_in_billions ∧
          q ∈ spec.quantizations) ∧
    (quantizationOptionsOf md f s).Nodup := by
  constructor
  · intro q
    unfold quantizationOptionsOf
    rw [mem_jsSetDedup]
    simp only [List.mem_flatMap, List.mem_filter, Bool.and_eq_true,
      decide_eq_true_eq]
    constructor
    · rintro ⟨spec, ⟨hmem, hf, hs⟩, hq⟩
      exact ⟨spec, hmem, hf, hs, hq⟩
    · rintro ⟨spec, hmem, hf, hs, hq⟩
      exact ⟨spec, ⟨hmem, hf, hs⟩, hq⟩
  · exact nodup_jsSetDedup _

/-- C7: the derived format options are exactly the distinct format
values of the catalog, each once, in first-seen order (phrased as
equality with the spec-side `distinctFirstSeen`), and the derived size
options are exactly the distinct sizes among variants of the chosen
format. -/
theorem formatOptions_sizeOptions_distinct (md : ModelData) (f : String) :
    formatOptionsOf md
        = distinctFirstSeen
            (md.model_specs.map (fun spec => spec.model_format)) ∧
    (formatOptionsOf md).Nodup ∧
    (∀ x, x ∈ formatOptionsOf md ↔
        ∃ spec ∈ md.model_specs, spec.model_format = x) ∧
    (sizeOptionsOf md f).Nodup ∧
    (∀ r, r ∈ sizeOptionsOf md f ↔
        ∃ spec ∈ md.model_specs,
          spec.model_format = f ∧ spec.model_size_in_billions = r) := by
  refine ⟨jsSetDedup_eq_distinctFirstSeen _, nodup_jsSetDedup _, ?_,
    nodup_jsSetDedup _, ?_⟩
  · intro x
    unfold formatOptionsOf
    rw [mem_jsSetDedup]
    simp only [List.mem_map]
  · intro r
    unfold sizeOptionsOf
    rw [mem_jsSetDedup]
    simp only [List.mem_map, List.mem_filter, decide_eq_true_eq]
    constructor
    · rintro ⟨spec, ⟨hmem, hf⟩, rfl⟩
      exact ⟨spec, hmem, hf, rfl⟩
    · rintro ⟨spec, hmem, hf, rfl⟩
      exact ⟨spec, ⟨hmem, hf⟩, rfl⟩

/-- A two-format catalog used to exhibit stale downstream selections. -/
def twoFormatModel : ModelData :=
  { model_name := "llama-2"
    is_builtin := true
    model_specs :=
      [{ model_format := "ggmlv3", model_size_in_billions := 7,
         quantizations := ["q4_0"] },
       { model_format := "pytorch", model_size_in_billions := 13,
         quantizations := ["int8"] }] }

/-- A state over `twoFormatModel` with the ggmlv3 variant selected. -/
def twoFormatState : CardState :=
  { hover := false
    selected := true
    modelFormat := "ggmlv3"
    modelSize := "7"
    quantization := "q4_0"
    formatOptions := ["ggmlv3", "pytorch"]
    sizeOptions := [7]
    quantizationOptions := ["q4_0"] }

/-- C10: a format change rewrites only the chosen format and the derived
option lists — the chosen size and quantization survive — and there are
reachable states where the surviving choices are absent from the newly
derived option lists, exhibited on a two-format catalog. -/
theorem formatChange_keeps_downstream_selection :
    (∀ (md : ModelData) (st : CardState) (v : String),
        (formatChange md st v).modelSize = st.modelSize ∧
        (formatChange md st v).quantization = st.quantization) ∧
    (∃ (md : ModelData) (st : CardState) (v : String),
        (formatChange md st v).modelSize = st.modelSize ∧
        (formatChange md st v).quantization = st.quantization ∧
        (formatChange md st v).quantization
            ∉ (formatChange md st v).quantizationOptions ∧
        jsParseFloat (formatChange md st v).modelSize = some 7 ∧
        (formatChange md st v).sizeOptions = [13]) := by
  constructor
  · intro md st v
    unfold formatChange effectsAfterFormatChange
    dsimp only
    split <;> split <;> exact ⟨rfl, rfl⟩
  · refine ⟨twoFormatModel, twoFormatState, "pytorch", ?_⟩
    decide

/-- The two request URLs of one run never coincide: they extend the
same base with "/v1/models" and "/v1/ui/…" respectively, which differ
at their fifth character. -/
theorem modelsUrl_ne_uiUrl (url u : String) : modelsUrl url ≠ uiUrl url u := by
  intro h
  have h2 : url.data ++ "/v1/models".data
      = url.data ++ ("/v1/ui/".data ++ u.data) := by
    have h1 := congrArg String.data h
    simp [modelsUrl, uiUrl, String.data_append, List.append_assoc] at h1
  have h3 : "/v1/models".data = "/v1/ui/".data ++ u.data :=
    List.append_cancel_left h2
  have h4 := congrArg (fun l => l[4]?) h3
  simp only at h4
  have hL : ("/v1/models".data)[4]? = some 'm' := by decide
  have hR : ("/v1/ui/".data ++ u.data)[4]? = some 'u' := by
    rw [List.getElem?_append_left (by decide)]
    decide
  rw [hL, hR] at h4
  exact absurd (Option.some.inj h4) (by decide)

/-- C3: in every launch run, a request to the per-instance UI endpoint
occurs in the trace only strictly after a response to the models
endpoint has been received: the second `fetch` is issued inside a
`.then` of the first, never in parallel. -/
theorem launch_second_request_after_first_response (flags : ApiFlags)
    (md : ModelData) (st : CardState) (url : String) (env : LaunchEnv)
    (i : Nat) (b : LaunchBody)
    (h : (launchModel flags md st url env)[i]?
        = some (Event.fetchReq (uiUrl url env.uuid) b)) :
    ∃ j s, j < i ∧ (launchModel flags md st url env)[j]?
        = some (Event.fetchResp (modelsUrl url) s) := by
  unfold launchModel at h
  cases hg : flags.isCallingApi || flags.isUpdatingModel with
  | true => rw [hg] at h; simp at h
  | false =>
    rw [hg] at h
    simp only [Bool.false_eq_true, if_false] at h
    cases h1 : env.fetch1 with
    | reject =>
      rw [h1] at h
      rcases i with _ | _ | _ | _ | _ | i
      · simp at h
      · simp only [List.getElem?_cons_succ, List.getElem?_cons_zero,
          Option.some.injEq, Event.fetchReq.injEq] at h
        exact absurd h.1 (modelsUrl_ne_uiUrl url env.uuid)
      · simp at h
      · simp at h
      · simp at h
      · simp at h
    | resolve s1 d1 =>
      rw [h1] at h
      cases h2 : env.fetch2 with
      | reject =>
        rw [h2] at h
        rcases i with _ | _ | _ | _ | _ | _ | _ | i
        · simp at h
        · simp only [List.getElem?_cons_succ, List.getElem?_cons_zero,
            Option.some.injEq, Event.fetchReq.injEq] at h
          exact absurd h.1 (modelsUrl_ne_uiUrl url env.uuid)
        · simp at h
        · exact ⟨2, s1, by omega, by simp [launchModel, hg, h1]⟩
        · simp at h
        · simp at h
        · simp at h
        · simp at h
      | resolve s2 d2 =>
        rw [h2] at h
        rcases i with _ | _ | _ | _ | _ | _ | _ | i
        · simp at h
        · simp only [List.getElem?_cons_succ, List.getElem?_cons_zero,
            Option.some.injEq, Event.fetchReq.injEq] at h
          exact absurd h.1 (modelsUrl_ne_uiUrl url env.uuid)
        · simp at h
        · exact ⟨2, s1, by omega, by simp [launchModel, hg, h1]⟩
        · simp at h
        · simp at h
        · simp at h
        · simp at h

/-- Witness for C3: on a successful concrete run the UI request sits at
index 3 and the models response strictly before it. -/
theorem launch_second_request_after_first_response_witness :
    ∃ j s, j < 3 ∧
      (launchModel ⟨false, false⟩ sampleModel sampleState "http://h"
          ⟨"u1", FetchOutcome.resolve 200 true, FetchOutcome.resolve 200 true⟩)[j]?
        = some (Event.fetchResp (modelsUrl "http://h") s) :=
  launch_second_request_after_first_response ⟨false, false⟩ sampleModel
    sampleState "http://h"
    ⟨"u1", FetchOutcome.resolve 200 true, FetchOutcome.resolve 200 true⟩ 3
    (launchBody sampleModel sampleState "u1") (by decide)

/-- C2 (amended): when either `fetch` promise rejects, the `.catch`
logs the error and clears the in-flight flag, with no retry and no
request issued after the rejection; a response that resolves but whose
body is not decodable does not trigger this failure handling, because
the handler discards the `response.json()` promise — such a run
proceeds on the success path without logging. -/
theorem launch_reject_failure_path (flags : ApiFlags) (md : ModelData)
    (st : CardState) (url : String) (env : LaunchEnv)
    (hc : flags.isCallingApi = false) (hu : flags.isUpdatingModel = false) :
    (env.fetch1 = FetchOutcome.reject →
      launchModel flags md st url env
        = [Event.setIsCallingApi true,
           Event.fetchReq (modelsUrl url) (launchBody md st env.uuid),
           Event.fetchReject (modelsUrl url),
           Event.consoleError,
           Event.setIsCallingApi false]) ∧
    (∀ s1 d1, env.fetch1 = FetchOutcome.resolve s1 d1 →
      env.fetch2 = FetchOutcome.reject →
      launchModel flags md st url env
        = [Event.setIsCallingApi true,
           Event.fetchReq (modelsUrl url) (launchBody md st env.uuid),
           Event.fetchResp (modelsUrl url) s1,
           Event.fetchReq (uiUrl url env.uuid) (launchBody md st env.uuid),
           Event.fetchReject (uiUrl url env.uuid),
           Event.consoleError,
           Event.setIsCallingApi false]) ∧
    (∀ s1 d1 s2 d2, env.fetch1 = FetchOutcome.resolve s1 d1 →
      env.fetch2 = FetchOutcome.resolve s2 d2 →
      Event.consoleError ∉ launchModel flags md st url env) := by
  refine ⟨?_, ?_, ?_⟩
  · intro h1
    unfold launchModel
    simp [hc, hu, h1]
  · intro s1 d1 h1 h2
    unfold launchModel
    simp [hc, hu, h1, h2]
  · intro s1 d1 s2 d2 h1 h2
    unfold launchModel
    simp [hc, hu, h1, h2]

/-- Witness for C2's amended theorem: a concrete run whose first call
rejects produces exactly the logged failure trace, with no second
request. -/
theorem launch_reject_failure_path_witness :
    launchModel ⟨false, false⟩ sampleModel sampleState "http://h"
        ⟨"u1", FetchOutcome.reject, FetchOutcome.reject⟩
      = [Event.setIsCallingApi true,
         Event.fetchReq (modelsUrl "http://h")
           (launchBody sampleModel sampleState "u1"),
         Event.fetchReject (modelsUrl "http://h"),
         Event.consoleError,
         Event.setIsCallingApi false] :=
  (launch_reject_failure_path ⟨false, false⟩ sampleModel sampleState
    "http://h" ⟨"u1", FetchOutcome.reject, FetchOutcome.reject⟩ rfl rfl).1 rfl

/-- Counterexample to C2 as stated: a run whose first call resolves
with a body that is not decodable as JSON.  The second request is still
issued and nothing is logged — the decode failure is an unhandled
rejection of the discarded `response.json()` promise, invisible to the
chain's `.catch`. -/
theorem launch_decode_failure_counterexample :
    Event.fetchReq (uiUrl "http://h" "u1")
        (launchBody sampleModel sampleState "u1")
      ∈ launchModel ⟨false, false⟩ sampleModel sampleState "http://h"
          ⟨"u1", FetchOutcome.resolve 200 false, FetchOutcome.resolve 200 true⟩ ∧
    Event.consoleError
      ∉ launchModel ⟨false, false⟩ sampleModel sampleState "http://h"
          ⟨"u1", FetchOutcome.resolve 200 false, FetchOutcome.resolve 200 true⟩ := by
  decide

/-- C4: a launch click in a state with a complete selection and both
flags clear, whose two calls both resolve, produces exactly this trace:
the flag is raised, one POST to `{url}/v1/models` and then one POST to
`{url}/v1/ui/{uuid}` are issued with the identical body built from the
single generated id, `{url}/{uuid}` is opened, and the flag is
cleared. -/
theorem clickLaunch_success_trace (flags : ApiFlags) (md : ModelData)
    (st : CardState) (url : String) (env : LaunchEnv) (s1 s2 : Nat)
    (d1 d2 : Bool)
    (hc : flags.isCallingApi = false) (hu : flags.isUpdatingModel = false)
    (hsel : selectionComplete md st = true)
    (h1 : env.fetch1 = FetchOutcome.resolve s1 d1)
    (h2 : env.fetch2 = FetchOutcome.resolve s2 d2) :
    clickLaunch flags md st url env
      = [Event.setIsCallingApi true,
         Event.fetchReq (url ++ "/v1/models")
           { model_uid := env.uuid
             model_name := md.model_name
             model_format := st.modelFormat
             model_size_in_billions := st.modelSize
             quantization := st.quantization },
         Event.fetchResp (url ++ "/v1/models") s1,
         Event.fetchReq (url ++ "/v1/ui/" ++ env.uuid)
           { model_uid := env.uuid
             model_name := md.model_name
             model_format := st.modelFormat
             model_size_in_billions := st.modelSize
             quantization := st.quantization },
         Event.fetchResp (url ++ "/v1/ui/" ++ env.uuid) s2,
         Event.windowOpen (url ++ "/" ++ env.uuid),
         Event.setIsCallingApi false] := by
  unfold clickLaunch launchButtonDisabled launchModel modelsUrl uiUrl
    launchBody
  simp [hc, hu, hsel, h1, h2]

/-- Witness for C4: the trace of a concrete successful run over the
sample catalog. -/
theorem clickLaunch_success_trace_witness :
    clickLaunch ⟨false, false⟩ sampleModel sampleState "http://h"
        ⟨"u1", FetchOutcome.resolve 200 true, FetchOutcome.resolve 201 true⟩
      = [Event.setIsCallingApi true,
         Event.fetchReq ("http://h" ++ "/v1/models")
           { model_uid := "u1"
             model_name := sampleModel.model_name
             model_format := sampleState.modelFormat
             model_size_in_billions := sampleState.modelSize
             quantization := sampleState.quantization },
         Event.fetchResp ("http://h" ++ "/v1/models") 200,
         Event.fetchReq ("http://h" ++ "/v1/ui/" ++ "u1")
           { model_uid := "u1"
             model_name := sampleModel.model_name
             model_format := sampleState.modelFormat
             model_size_in_billions := sampleState.modelSize
             quantization := sampleState.quantization },
         Event.fetchResp ("http://h" ++ "/v1/ui/" ++ "u1") 201,
         Event.windowOpen ("http://h" ++ "/" ++ "u1"),
         Event.setIsCallingApi false] :=
  clickLaunch_success_trace ⟨false, false⟩ sampleModel sampleState "http://h"
    ⟨"u1", FetchOutcome.resolve 200 true, FetchOutcome.resolve 201 true⟩
    200 201 true true rfl rfl rfl rfl rfl

/-- C9: the sequencer never inspects the HTTP status of either
response: whenever both fetches resolve — whatever the statuses, 500
included, and whether or not the bodies decode — the run follows the
success path, opening the endpoint and clearing the flag, and logs
nothing. -/
theorem launch_ignores_response_status (flags : ApiFlags) (md : ModelData)
    (st : CardState) (url : String) (env : LaunchEnv) (s1 s2 : Nat)
    (d1 d2 : Bool)
    (hc : flags.isCallingApi = false) (hu : flags.isUpdatingModel = false)
    (h1 : env.fetch1 = FetchOutcome.resolve s1 d1)
    (h2 : env.fetch2 = FetchOutcome.resolve s2 d2) :
    launchModel flags md st url env
      = [Event.setIsCallingApi true,
         Event.fetchReq (modelsUrl url) (launchBody md st env.uuid),
         Event.fetchResp (modelsUrl url) s1,
         Event.fetchReq (uiUrl url env.uuid) (launchBody md st env.uuid),
         Event.fetchResp (uiUrl url env.uuid) s2,
         Event.windowOpen (url ++ "/" ++ env.uuid),
         Event.setIsCallingApi false] ∧
    Event.consoleError ∉ launchModel flags md st url env := by
  constructor
  · unfold launchModel
    simp [hc, hu, h1, h2]
  · unfold launchModel
    simp [hc, hu, h1, h2]

/-- Witness for C9: a run in which both calls resolve with status 500
and undecodable bodies still opens the endpoint and logs nothing. -/
theorem launch_ignores_response_status_witness :
    launchModel ⟨false, false⟩ sampleModel sampleState "http://h"
        ⟨"u1", FetchOutcome.resolve 500 false, FetchOutcome.resolve 500 false⟩
      = [Event.setIsCallingApi true,
         Event.fetchReq (modelsUrl "http://h")
           (launchBody sampleModel sampleState "u1"),
         Event.fetchResp (modelsUrl "http://h") 500,
         Event.fetchReq (uiUrl "http://h" "u1")
           (launchBody sampleModel sampleState "u1"),
         Event.fetchResp (uiUrl "http://h" "u1") 500,
         Event.windowOpen ("http://h" ++ "/" ++ "u1"),
         Event.setIsCallingApi false] ∧
    Event.consoleError
      ∉ launchModel ⟨false, false⟩ sampleModel sampleState "http://h"
          ⟨"u1", FetchOutcome.resolve 500 false, FetchOutcome.resolve 500 false⟩ :=
  launch_ignores_response_status ⟨false, false⟩ sampleModel sampleState
    "http://h"
    ⟨"u1", FetchOutcome.resolve 500 false, FetchOutcome.resolve 500 false⟩
    500 500 false false rfl rfl rfl rfl
